import Mathlib

/-
Verification of the TrafficPrediction browser client.

The definitions below are shallow embeddings of the JavaScript source:
  - app/static/js/utils.js   (Utils: validateForm, getTrafficLoad, getTravelAdvisory)
  - app/static/js/main.js    (App: predictTraffic, handleCitySelection)
  - app/static/js/map.js     (TrafficMap: showCityTraffic, locateUser, calculateETA,
                              drawRoute, clearRoute, showAllCitiesOnMap)
  - the legacy map module    (TrafficMap: findNearestCity, calculateDistance,
                              locateUser, trafficLabels/trafficMessages/trafficColors)

JavaScript conventions used throughout the embedding:
  - a missing object key yields `undefined`, modelled as `Option.none`;
  - `x || d` on a looked-up value is modelled as `Option.getD`;
  - `NaN` form fields are modelled as `Option.none`;
  - numeric form/level values are modelled as `Int`/`Nat`, coordinates as `ℚ`
    (exact client data) or `ℝ` (for the trigonometric haversine formula).
-/

namespace TrafficPrediction

/-! ## Traffic-level policy (utils.js lines 258-276, legacy map lines 22-27 and 376-408) -/

/-- The `trafficLabels` object of the legacy map module:
`{ 0: 'Low', 1: 'Medium', 2: 'High' }`; a missing key yields `undefined` (`none`). -/
def trafficLabels (level : Int) : Option String :=
  if level = 0 then some "Low"
  else if level = 1 then some "Medium"
  else if level = 2 then some "High"
  else none

/-- The `trafficMessages` object of the legacy map module. -/
def trafficMessages (level : Int) : Option String :=
  if level = 0 then some "Traffic is flowing smoothly"
  else if level = 1 then some "Moderate traffic expected"
  else if level = 2 then some "Heavy traffic detected"
  else none

/-- The `trafficColors` object (`{0:'#28a745', 1:'#ffc107', 2:'#dc3545'}`).
The source reads `trafficColors[trafficLevel]` with no `||` fallback, so an
out-of-range level yields `undefined` (`none`). -/
def trafficColors (level : Int) : Option String :=
  if level = 0 then some "#28a745"
  else if level = 1 then some "#ffc107"
  else if level = 2 then some "#dc3545"
  else none

/-- The `loads` object inside `Utils.getTrafficLoad`. -/
def trafficLoads (level : Int) : Option String :=
  if level = 0 then some "10-30%"
  else if level = 1 then some "40-70%"
  else if level = 2 then some "75-100%"
  else none

/-- Embedding of `Utils.getTrafficLoad`: `loads[trafficLevel] || "Unknown"`. -/
def getTrafficLoad (level : Int) : String :=
  (trafficLoads level).getD "Unknown"

/-- The `advisories` object inside `Utils.getTravelAdvisory`. -/
def travelAdvisories (level : Int) : Option String :=
  if level = 0 then some "Normal"
  else if level = 1 then some "Caution"
  else if level = 2 then some "Warning"
  else none

/-- Embedding of `Utils.getTravelAdvisory`: `advisories[trafficLevel] || "Normal"`. -/
def getTravelAdvisory (level : Int) : String :=
  (travelAdvisories level).getD "Normal"

/-- The display tuple a traffic level maps to, assembled from the individual
lookups the source performs (label via `trafficLabels[level] || 'Unknown'`,
message via `trafficMessages[level] || 'No traffic data available'`, color via
the bare `trafficColors[trafficLevel]` read, load band and advisory via the
`Utils` helpers). -/
structure TrafficDescription where
  label : String
  color : Option String
  message : String
  loadBand : String
  advisory : String
deriving DecidableEq

/-- The composite traffic-level policy lookup, combining exactly the fallbacks
present in the source. -/
def describeTrafficLevel (level : Int) : TrafficDescription :=
  { label := (trafficLabels level).getD "Unknown"
    color := trafficColors level
    message := (trafficMessages level).getD "No traffic data available"
    loadBand := getTrafficLoad level
    advisory := getTravelAdvisory level }

/-! ## Form validation (utils.js lines 222-243) -/

/-- A form submission as read by `Utils.validateForm`; `none` models a `NaN`
field (a non-numeric input). -/
structure TrafficFormData where
  hour : Option Int
  day : Option Int
  city : Option Int
  weather : Option Int

/-- The per-field check `isNaN(v) || v < lo || v > hi` from `Utils.validateForm`. -/
def fieldViolation (v : Option Int) (lo hi : Int) : Bool :=
  match v with
  | none => true
  | some n => n < lo || n > hi

/-- The specification-level constraint a field must satisfy: a numeric value
inside the closed range. -/
def fieldOk (v : Option Int) (lo hi : Int) : Prop :=
  ∃ n, v = some n ∧ lo ≤ n ∧ n ≤ hi

/-- Embedding of `Utils.validateForm`: pushes one message per violated constraint, in the
source order hour, day, city, weather. The city check `0 ≤ city ≤ 3` is
membership in the four known city ids of `tunisiaCities`. -/
def validateForm (f : TrafficFormData) : List String :=
  (if fieldViolation f.hour 0 23 then ["Hour must be between 0 and 23"] else []) ++
  (if fieldViolation f.day 0 6 then ["Day must be between 0 (Monday) and 6 (Sunday)"] else []) ++
  (if fieldViolation f.city 0 3 then ["City must be between 0 and 3"] else []) ++
  (if fieldViolation f.weather 0 2 then ["Weather must be between 0 and 2"] else [])

/-! ## Geodesy (legacy map lines 282-292: `TrafficMap.calculateDistance`) -/

/-- Modelled from the JavaScript builtin `Math.atan2(y, x)`: the angle of the
point `(x, y)`, by the standard case split on the signs of the arguments. -/
noncomputable def atan2 (y x : ℝ) : ℝ :=
  if 0 < x then Real.arctan (y / x)
  else if x < 0 ∧ 0 ≤ y then Real.arctan (y / x) + Real.pi
  else if x < 0 ∧ y < 0 then Real.arctan (y / x) - Real.pi
  else if x = 0 ∧ 0 < y then Real.pi / 2
  else if x = 0 ∧ y < 0 then -(Real.pi / 2)
  else 0

/-- Embedding of `TrafficMap.calculateDistance(lat1, lon1, lat2, lon2)`: haversine
great-circle distance on a sphere of radius 6371 km, idealized over `ℝ`
(the source computes with IEEE doubles). -/
noncomputable def calculateDistance (lat1 lon1 lat2 lon2 : ℝ) : ℝ :=
  let R : ℝ := 6371
  let dLat := (lat2 - lat1) * Real.pi / 180
  let dLon := (lon2 - lon1) * Real.pi / 180
  let a := Real.sin (dLat / 2) * Real.sin (dLat / 2) +
    Real.cos (lat1 * Real.pi / 180) * Real.cos (lat2 * Real.pi / 180) *
      (Real.sin (dLon / 2) * Real.sin (dLon / 2))
  let c := 2 * atan2 (Real.sqrt a) (Real.sqrt (1 - a))
  R * c

/-! ## Nearest city (legacy map lines 260-280: `TrafficMap.findNearestCity`)

The source scans `Object.entries(tunisiaCities)` (keys are the small integer
city ids, iterated in ascending numeric order per the JavaScript object-key
order) with `minDistance = Infinity` and the strict update
`if (distance < minDistance)`.  The scan is embedded parametrically in the
distance function (`this.calculateDistance` applied to the user location in
the source) so that the selection logic can be analysed for every location
and every linearly ordered distance value; the `none` accumulator plays the
role of the initial `Infinity`. -/

/-- The `forEach` body of `findNearestCity`: `best` holds
`(nearestCity, minDistance)`, `none` standing for the initial
`(null, Infinity)` pair, so the strict comparison `distance < minDistance`
always accepts the first entry. -/
def nearestStep {L C D : Type} [LinearOrder D] (dist : L → C → D) (loc : L)
    (best : Option ((Nat × C) × D)) (e : Nat × C) : Option ((Nat × C) × D) :=
  match best with
  | none => some (e, dist loc e.2)
  | some (b, m) => if dist loc e.2 < m then some (e, dist loc e.2) else some (b, m)

/-- The full `forEach` scan of `findNearestCity`. -/
def nearestFold {L C D : Type} [LinearOrder D] (dist : L → C → D) (loc : L)
    (entries : List (Nat × C)) : Option ((Nat × C) × D) :=
  entries.foldl (nearestStep dist loc) none

/-- Embedding of `TrafficMap.findNearestCity`, returning the nearest entry (id and city). -/
def findNearestCity {L C D : Type} [LinearOrder D] (dist : L → C → D) (loc : L)
    (entries : List (Nat × C)) : Option (Nat × C) :=
  (nearestFold dist loc entries).map Prod.fst

/-- Recursive presentation of the same scan, used to reason about
`findNearestCity` by induction: the running best entry against the rest of
the list. -/
def nearestScan {L C D : Type} [LinearOrder D] (dist : L → C → D) (loc : L) :
    (Nat × C) → List (Nat × C) → (Nat × C)
  | b, [] => b
  | b, e :: rest =>
      if dist loc e.2 < dist loc b.2 then nearestScan dist loc e rest
      else nearestScan dist loc b rest

/-! ## Geolocation failure policy (map.js lines 377-426 and legacy map lines 157-223) -/

/-- A user location as stored by the map modules (`{lat, lng, accuracy}`);
coordinates are exact rationals in the embedding. -/
structure UserLoc where
  lat : ℚ
  lng : ℚ
  accuracy : Option ℚ
deriving DecidableEq

/-- The browser geolocation error classification. -/
inductive GeoErrorCode
  | permissionDenied
  | positionUnavailable
  | timeout
  | otherError
deriving DecidableEq

/-- The hardcoded capital-city substitute `{lat: 36.8065, lng: 10.1815}` (Tunis). -/
def tunisDefault : UserLoc :=
  { lat := 36.8065, lng := 10.1815, accuracy := none }

/-- The error callback of `TrafficMap.locateUser` in the enhanced module
(map.js): returns the new `userLocation`, the notification message and the
notification type.  On permission denial the stored location is untouched;
on any other failure the Tunis default is substituted. -/
def locateUserOnError (prev : Option UserLoc) (e : GeoErrorCode) :
    Option UserLoc × String × String :=
  match e with
  | .permissionDenied =>
      (prev, "Could not detect location. Please enable location permissions.", "warning")
  | _ =>
      (some tunisDefault, "Could not detect location. Using Tunis as default.", "warning")

/-- The error callback of `TrafficMap.locateUser` in the legacy module: the
message describes the failure cause, after which the Tunis default is
substituted unconditionally (the assignment sits after the `switch`, outside
any branch). -/
def locateUserOnErrorLegacy (_prev : Option UserLoc) (e : GeoErrorCode) :
    Option UserLoc × String × String :=
  let message := "Location detection failed. " ++
    (match e with
     | .permissionDenied => "Please enable location permissions."
     | .positionUnavailable => "Location information unavailable."
     | .timeout => "Location request timed out."
     | .otherError => "Unknown error.")
  (some tunisDefault, message, "error")

/-! ## ETA request construction (map.js lines 485-537: `TrafficMap.calculateETA`) -/

/-- The JSON body posted to `/api/calculate-eta`. -/
structure EtaRequestBody where
  originLat : ℚ
  originLng : ℚ
  city_id : Nat
  hour : Nat
  day : Nat
  weather : Nat
deriving DecidableEq

/-- The request-construction prefix of `TrafficMap.calculateETA`, for form
fields that parse as numbers:
`hour = parseInt(...) || new Date().getHours()` (a parsed `0` is falsy, so
midnight falls back to the wall clock), likewise for `day` with
`new Date().getDay()`, then `dayIndex = day === 0 ? 6 : day - 1`, and
`weather = parseInt(...) || 0`. -/
def buildEtaRequest (formHour formDay formWeather : Nat) (nowHour nowCalendarDay : Nat)
    (cityId : Nat) (loc : UserLoc) : EtaRequestBody :=
  let hour := if formHour = 0 then nowHour else formHour
  let day := if formDay = 0 then nowCalendarDay else formDay
  let dayIndex := if day = 0 then 6 else day - 1
  let weather := if formWeather = 0 then 0 else formWeather
  { originLat := loc.lat
    originLng := loc.lng
    city_id := cityId
    hour := hour
    day := dayIndex
    weather := weather }

/-! ## Remote prediction path (main.js lines 364-397: `App.predictTraffic`) -/

/-- Outcome of the remote `/api/traffic-prediction` round trip as observed by
`App.predictTraffic`: the `fetch`/`response.json()` pair threw (transport or
parse failure), or a parsed body with `success: false`, or a parsed body with
`success: true` carrying the payload. -/
inductive RemoteResp (α : Type)
  | fetchOrParseError
  | failure (err : String)
  | ok (data : α)
deriving DecidableEq

/-- What `App.predictTraffic` does for the caller/UI: warn that no city is
selected, update the prediction display with the remote payload (plus a
success notification), or show an error notification. -/
inductive PredictOutcome (α : Type)
  | warnNoCity
  | updated (data : α)
  | errorShown (msg : String)
deriving DecidableEq

/-- Embedding of `App.predictTraffic`, as a function of the selected city and the remote
outcome.  Failure branches come verbatim from the source: the `catch` shows
`'Failed to get prediction'` and `success: false` shows
`'Prediction failed: <error>'`, both with notification type `'error'`; no
local fallback prediction exists anywhere in the client. -/
def predictTraffic {α : Type} (currentCityId : Option Nat) (resp : RemoteResp α) :
    PredictOutcome α :=
  match currentCityId with
  | none => .warnNoCity
  | some _ =>
    match resp with
    | .fetchOrParseError => .errorShown "Failed to get prediction"
    | .failure err => .errorShown ("Prediction failed: " ++ err)
    | .ok d => .updated d

/-! ## City-selection supersession (main.js lines 192-239 and map.js lines 288-374)

`App.handleCitySelection(cityId)` synchronously sets the module variables and
awaits `TrafficMap.showCityTraffic(cityId)`, whose synchronous prefix removes
the current selected-city marker and starts the `/api/traffic-for-city` fetch.
When that fetch resolves, the continuation adds a marker for its own city,
reassigns `currentTrafficMarker`, and back in `handleCitySelection` stores the
traffic data and re-renders the info display — with no token or staleness
check of any kind.  The state machine below records exactly the module
variables these two functions write. -/

/-- The selection-related module state: `currentCityId`/`currentCityData`
(main.js), `currentTrafficData` tagged with the city the payload belongs to,
the info display last rendered by `updateCityInfoDisplay` (city and its
traffic level), the `currentTrafficMarker` variable (city of the marker it
holds) and the multiset of selected-city markers actually on the map. -/
structure SelState where
  currentCityId : Option Nat
  currentCityData : Option Nat
  currentTrafficData : Option (Nat × Nat)
  infoDisplay : Option (Nat × Option Nat)
  markerVar : Option Nat
  mapMarkers : List Nat
deriving DecidableEq

/-- The initial module state (all variables `null`, no markers). -/
def initSel : SelState :=
  { currentCityId := none, currentCityData := none, currentTrafficData := none
    infoDisplay := none, markerVar := none, mapMarkers := [] }

/-- Events of the selection event loop: the synchronous part of a
`selectCity` call, and the resolution of the traffic fetch issued for a city
(with the level payload on success). -/
inductive SelEvent
  | select (c : Nat)
  | resolveOk (c : Nat) (lvl : Nat)
  | resolveFail (c : Nat)
deriving DecidableEq

/-- One event-loop step of the selection machinery, for the city set
`cities` (membership in `window.appData.cities`):

* `select c`, known city: `currentCityId := c`, `currentCityData := c`
  (main.js lines 193-201), then the synchronous prefix of `showCityTraffic`
  removes the marker held in `currentTrafficMarker` from the map and nulls
  the variable (map.js lines 291-295) before suspending on the fetch;
* `select c`, unknown city: `clearCitySelection()` nulls the module
  variables and hides the display (markers are left alone, main.js 279-283);
* `resolveOk c lvl`: the fetch continuation adds the big marker for `c` to
  the map and stores it in `currentTrafficMarker` (map.js lines 312-316) —
  without removing whatever marker the variable acquired in the meantime —
  then `handleCitySelection` stores the payload and renders the info display
  for `c` (main.js lines 211-214);
* `resolveFail c`: `showCityTraffic` returns `null`, so
  `handleCitySelection` leaves the state unchanged (notifications only). -/
def stepSel (cities : Nat → Bool) (s : SelState) : SelEvent → SelState
  | .select c =>
      if cities c then
        { currentCityId := some c
          currentCityData := some c
          currentTrafficData := s.currentTrafficData
          infoDisplay := s.infoDisplay
          markerVar := none
          mapMarkers :=
            match s.markerVar with
            | some m => s.mapMarkers.erase m
            | none => s.mapMarkers }
      else
        { currentCityId := none, currentCityData := none, currentTrafficData := none
          infoDisplay := none, markerVar := s.markerVar, mapMarkers := s.mapMarkers }
  | .resolveOk c lvl =>
      { currentCityId := s.currentCityId
        currentCityData := s.currentCityData
        currentTrafficData := some (c, lvl)
        infoDisplay := some (c, some lvl)
        markerVar := some c
        mapMarkers := s.mapMarkers ++ [c] }
  | .resolveFail _ => s

/-- Run of the selection event loop over a trace of events. -/
def runSel (cities : Nat → Bool) (s : SelState) (trace : List SelEvent) : SelState :=
  trace.foldl (stepSel cities) s

/-- A two-city `window.appData.cities` set used for concrete scenarios. -/
def citiesTwo : Nat → Bool := fun c => c ≤ 1

/-! ## Bulk per-city traffic markers (map.js lines 227-274: `showAllCitiesOnMap`) -/

/-- A city record as stored in `window.appData.cities`. -/
structure City where
  name : String
  lat : ℚ
  lng : ℚ
deriving DecidableEq

/-- Outcome of one `/api/traffic-for-city/<id>` round trip inside the
`showAllCitiesOnMap` loop: the `fetch`/`json()` threw (caught per iteration),
or a parsed body with its `success` flag and traffic level. -/
inductive CityFetchOutcome
  | fetchError
  | response (success : Bool) (level : Int)
deriving DecidableEq

/-- Embedding of `TrafficMap.showAllCitiesOnMap`: iterates over the city entries, fetches
traffic per city inside a per-iteration `try/catch`, and pushes one marker
(city id with its traffic level, which selects the icon) exactly when
`data.success` holds; failed iterations only log and continue. -/
def showAllCitiesOnMap (fetchResult : Nat → CityFetchOutcome)
    (cities : List (Nat × City)) : List (Nat × Int) :=
  cities.foldl
    (fun markers e =>
      match fetchResult e.1 with
      | .response true lvl => markers ++ [(e.1, lvl)]
      | _ => markers)
    []

/-- The marker one loop iteration of `showAllCitiesOnMap` contributes for a
city entry: present exactly when that city's own fetch succeeded. -/
def cityMarkerOf (fetchResult : Nat → CityFetchOutcome) (e : Nat × City) :
    Option (Nat × Int) :=
  match fetchResult e.1 with
  | .response true lvl => some (e.1, lvl)
  | _ => none

/-- A concrete three-city `window.appData.cities` for scenarios. -/
def demoCities : List (Nat × City) :=
  [(0, { name := "Tunis", lat := 36.8065, lng := 10.1815 }),
   (1, { name := "Ariana", lat := 36.8625, lng := 10.1956 }),
   (2, { name := "Sfax", lat := 34.7406, lng := 10.7603 })]

/-- A concrete per-city fetch outcome assignment: city 0 succeeds with level
2, city 1 suffers a transport failure, every other city answers with
`success: false`. -/
def demoFetch : Nat → CityFetchOutcome
  | 0 => .response true 2
  | 1 => .fetchError
  | _ => .response false 1

/-! ## Route rendering (map.js lines 540-613: `drawRoute` and `clearRoute`) -/

/-- The route-rendering module state: the `routeLayer` polyline (its
coordinates) and the `destinationMarker` (its position), or `null`. -/
structure RouteState where
  routeLayer : Option (List (ℚ × ℚ))
  destinationMarker : Option (ℚ × ℚ)
deriving DecidableEq

/-- Embedding of `TrafficMap.clearRoute`: removes the polyline and the destination marker
from the map and nulls both variables. -/
def clearRoute (_s : RouteState) : RouteState :=
  { routeLayer := none, destinationMarker := none }

/-- Embedding of `TrafficMap.drawRoute(routeData, city)`: always clears the previous route
first, then draws the polyline and destination marker only under
`routeData.coordinates && routeData.coordinates.length > 0` (a missing
coordinates field is modelled as `none`). -/
def drawRoute (coordinates : Option (List (ℚ × ℚ))) (city : City) (s : RouteState) :
    RouteState :=
  let s₁ := clearRoute s
  match coordinates with
  | some coords =>
      if coords.length > 0 then
        { routeLayer := some coords, destinationMarker := some (city.lat, city.lng) }
      else s₁
  | none => s₁

/-! # Theorems -/

lemma fieldViolation_false_iff (v : Option Int) (lo hi : Int) :
    fieldViolation v lo hi = false ↔ fieldOk v lo hi := by
  cases v with
  | none => simp [fieldViolation, fieldOk]
  | some n =>
    simp only [fieldViolation, fieldOk, Bool.or_eq_false_iff, decide_eq_false_iff_not,
      Option.some.injEq]
    constructor
    · rintro ⟨h1, h2⟩
      exact ⟨n, rfl, by omega, by omega⟩
    · rintro ⟨m, hm, h1, h2⟩
      cases hm
      exact ⟨by omega, by omega⟩

/-- Claim C7: for every form input, `Utils.validateForm` returns the empty
error list exactly when all four constraints (hour 0-23, day 0-6, city a
known id 0-3, weather 0-2) hold; each constraint's message is present exactly
when that constraint is violated; and the list holds one entry per violated
constraint. -/
theorem validateForm_spec (f : TrafficFormData) :
    (validateForm f = [] ↔
      fieldOk f.hour 0 23 ∧ fieldOk f.day 0 6 ∧ fieldOk f.city 0 3 ∧ fieldOk f.weather 0 2)
  ∧ ("Hour must be between 0 and 23" ∈ validateForm f ↔ ¬ fieldOk f.hour 0 23)
  ∧ ("Day must be between 0 (Monday) and 6 (Sunday)" ∈ validateForm f ↔ ¬ fieldOk f.day 0 6)
  ∧ ("City must be between 0 and 3" ∈ validateForm f ↔ ¬ fieldOk f.city 0 3)
  ∧ ("Weather must be between 0 and 2" ∈ validateForm f ↔ ¬ fieldOk f.weather 0 2)
  ∧ (validateForm f).length
      = (if fieldViolation f.hour 0 23 then 1 else 0)
        + (if fieldViolation f.day 0 6 then 1 else 0)
        + (if fieldViolation f.city 0 3 then 1 else 0)
        + (if fieldViolation f.weather 0 2 then 1 else 0) := by
  have hh := fieldViolation_false_iff f.hour 0 23
  have hd := fieldViolation_false_iff f.day 0 6
  have hc := fieldViolation_false_iff f.city 0 3
  have hw := fieldViolation_false_iff f.weather 0 2
  cases h1 : fieldViolation f.hour 0 23 <;>
    cases h2 : fieldViolation f.day 0 6 <;>
      cases h3 : fieldViolation f.city 0 3 <;>
        cases h4 : fieldViolation f.weather 0 2 <;>
          simp [validateForm, h1, h2, h3, h4, ← hh, ← hd, ← hc, ← hw]

/-- Claim C6 (amended): for levels 0, 1, 2 the policy lookup yields the fixed
non-empty display tuples below; for every other integer the individual
lookups do not fail and yield the fallbacks `'Unknown'` (label),
`'No traffic data available'` (message), `'Unknown'` (load band) and
`'Normal'` (advisory), while the color lookup yields `undefined` (`none`),
since `trafficColors` has no fallback. -/
theorem describeTrafficLevel_spec :
    describeTrafficLevel 0 =
      { label := "Low", color := some "#28a745", message := "Traffic is flowing smoothly",
        loadBand := "10-30%", advisory := "Normal" }
  ∧ describeTrafficLevel 1 =
      { label := "Medium", color := some "#ffc107", message := "Moderate traffic expected",
        loadBand := "40-70%", advisory := "Caution" }
  ∧ describeTrafficLevel 2 =
      { label := "High", color := some "#dc3545", message := "Heavy traffic detected",
        loadBand := "75-100%", advisory := "Warning" }
  ∧ ∀ level : Int, level ≠ 0 → level ≠ 1 → level ≠ 2 →
      describeTrafficLevel level =
        { label := "Unknown", color := none, message := "No traffic data available",
          loadBand := "Unknown", advisory := "Normal" } := by
  refine ⟨rfl, rfl, rfl, ?_⟩
  intro level h0 h1 h2
  simp [describeTrafficLevel, trafficLabels, trafficMessages, trafficColors, getTrafficLoad,
    trafficLoads, getTravelAdvisory, travelAdvisories, h0, h1, h2]

/-- Claim C6, fallback tuple at a concrete out-of-range level, applying
`describeTrafficLevel_spec` at level 7. -/
theorem describeTrafficLevel_spec_witness :
    (7 : Int) ≠ 0 ∧ (7 : Int) ≠ 1 ∧ (7 : Int) ≠ 2
  ∧ describeTrafficLevel 7 =
      { label := "Unknown", color := none, message := "No traffic data available",
        loadBand := "Unknown", advisory := "Normal" } :=
  ⟨by decide, by decide, by decide,
    describeTrafficLevel_spec.2.2.2 7 (by decide) (by decide) (by decide)⟩

/-- Claim C6, counterexample to the claim as stated: at the out-of-range
level 3 the color component of the tuple is `undefined` (`none`), not a
defined fallback value (in-range levels do carry a color), and the advisory
falls back to `'Normal'`, the same value as level 0, rather than to an
unknown-marker. -/
theorem describeTrafficLevel_color_counterexample :
    (describeTrafficLevel 3).color = none
  ∧ (describeTrafficLevel 0).color = some "#28a745"
  ∧ (describeTrafficLevel 3).advisory = "Normal"
  ∧ (describeTrafficLevel 0).advisory = "Normal" :=
  ⟨rfl, rfl, rfl, rfl⟩

/-- Claim C1 (amended): when the remote prediction round trip fails —
transport/parse failure or a well-formed `success: false` body —
`App.predictTraffic` shows an error notification (`'Failed to get
prediction'`, resp. `'Prediction failed: <error>'`) and does not update the
prediction display; no local fallback prediction is computed (the client
defines no fallback predictor). -/
theorem predictTraffic_failure_spec {α : Type} (cid : Nat) (err : String) :
    predictTraffic (some cid) (RemoteResp.fetchOrParseError : RemoteResp α)
        = PredictOutcome.errorShown "Failed to get prediction"
  ∧ predictTraffic (some cid) (RemoteResp.failure err : RemoteResp α)
        = PredictOutcome.errorShown ("Prediction failed: " ++ err)
  ∧ (∀ d : α, predictTraffic (some cid) (RemoteResp.fetchOrParseError : RemoteResp α)
        ≠ PredictOutcome.updated d)
  ∧ (∀ d : α, predictTraffic (some cid) (RemoteResp.failure err : RemoteResp α)
        ≠ PredictOutcome.updated d) :=
  ⟨rfl, rfl, fun d h => by simp [predictTraffic] at h, fun d h => by simp [predictTraffic] at h⟩

/-- Claim C1, counterexample to the claim as stated: on a transport failure
with city 0 selected, `App.predictTraffic` surfaces an error notification to
the caller and does not return any (fallback) prediction result. -/
theorem predictTraffic_failure_counterexample :
    predictTraffic (some 0) (RemoteResp.fetchOrParseError : RemoteResp Unit)
        = PredictOutcome.errorShown "Failed to get prediction"
  ∧ predictTraffic (some 0) (RemoteResp.fetchOrParseError : RemoteResp Unit)
        ≠ PredictOutcome.updated () := by
  decide

/-- Claim C3: evaluation of the ETA request builder at the failing input.
With form values hour 9, day 4 (Friday in the system convention the form
stores), weather 1, a known location and city 2 selected, the issued request
carries `day = 3`, not the form value 4: `calculateETA` applies the
calendar-to-system rotation `day === 0 ? 6 : day - 1` to a value that is
already in the system convention (main.js lines 169-189 store the rotated
day in the form). -/
theorem calculateETA_request_day_shift :
    buildEtaRequest 9 4 1 12 3 2 { lat := 36.9, lng := 10.2, accuracy := none }
      = { originLat := 36.9, originLng := 10.2, city_id := 2, hour := 9, day := 3, weather := 1 }
  ∧ (buildEtaRequest 9 4 1 12 3 2 { lat := 36.9, lng := 10.2, accuracy := none }).day ≠ 4 :=
  ⟨rfl, by decide⟩

/-- Claim C8 (amended): geolocation-failure handling of both `locateUser`
variants, for every prior stored location.  In the enhanced variant
(map.js), permission denial leaves the stored location unchanged and warns
about permissions, while any other failure substitutes the Tunis default
with a warning whose text mentions the default.  In the legacy variant, the
Tunis default is substituted on every failure — including permission denial
— and the message only describes the failure cause, never the substitution;
in both variants the substituted value is an ordinary `UserLoc` with no
degraded marker. -/
theorem locateUser_failure_spec (prev : Option UserLoc) :
    locateUserOnError prev .permissionDenied
        = (prev, "Could not detect location. Please enable location permissions.", "warning")
  ∧ locateUserOnError prev .positionUnavailable
        = (some tunisDefault, "Could not detect location. Using Tunis as default.", "warning")
  ∧ locateUserOnError prev .timeout
        = (some tunisDefault, "Could not detect location. Using Tunis as default.", "warning")
  ∧ locateUserOnErrorLegacy prev .permissionDenied
        = (some tunisDefault,
            "Location detection failed. Please enable location permissions.", "error")
  ∧ locateUserOnErrorLegacy prev .positionUnavailable
        = (some tunisDefault,
            "Location detection failed. Location information unavailable.", "error")
  ∧ locateUserOnErrorLegacy prev .timeout
        = (some tunisDefault, "Location detection failed. Location request timed out.", "error") :=
  ⟨rfl, rfl, rfl, rfl, rfl, rfl⟩

/-- Claim C8, counterexample to the claim as stated: in the legacy
`locateUser`, a permission-denied failure with no previously stored location
still sets `userLocation` to the Tunis default — the claim requires it to
remain unset — and on a timeout the emitted message describes only the
failure, not the substitution. -/
theorem locateUser_permission_counterexample :
    (locateUserOnErrorLegacy none GeoErrorCode.permissionDenied).1 = some tunisDefault
  ∧ (locateUserOnErrorLegacy none GeoErrorCode.permissionDenied).1 ≠ none
  ∧ (locateUserOnErrorLegacy none GeoErrorCode.timeout).2.1
      = "Location detection failed. Location request timed out." := by
  refine ⟨rfl, ?_, rfl⟩
  simp [locateUserOnErrorLegacy]

/-- Claim C10: a `drawRoute` call whose route data has a missing or empty
coordinates list removes any previously rendered route polyline and
destination marker (both state slots become `none`) and draws nothing new. -/
theorem drawRoute_empty_clears_spec (s : RouteState) (city : City)
    (coordinates : Option (List (ℚ × ℚ)))
    (h : coordinates = none ∨ coordinates = some []) :
    drawRoute coordinates city s = { routeLayer := none, destinationMarker := none } := by
  rcases h with h | h <;> subst h <;> rfl

lemma foldl_nearestStep_some {L C D : Type} [LinearOrder D] (dist : L → C → D) (loc : L) :
    ∀ (l : List (Nat × C)) (b : Nat × C),
      l.foldl (nearestStep dist loc) (some (b, dist loc b.2))
        = some (nearestScan dist loc b l, dist loc (nearestScan dist loc b l).2) := by
  intro l
  induction l with
  | nil => intro b; rfl
  | cons e rest ih =>
    intro b
    simp only [List.foldl_cons, nearestStep, nearestScan]
    by_cases h : dist loc e.2 < dist loc b.2
    · simp only [if_pos h]
      exact ih e
    · simp only [if_neg h]
      exact ih b

lemma findNearestCity_cons {L C D : Type} [LinearOrder D] (dist : L → C → D) (loc : L)
    (e : Nat × C) (l : List (Nat × C)) :
    findNearestCity dist loc (e :: l) = some (nearestScan dist loc e l) := by
  simp only [findNearestCity, nearestFold, List.foldl_cons, nearestStep]
  rw [foldl_nearestStep_some dist loc l e]
  rfl

lemma nearestScan_mem {L C D : Type} [LinearOrder D] (dist : L → C → D) (loc : L) :
    ∀ (l : List (Nat × C)) (b : Nat × C), nearestScan dist loc b l ∈ b :: l := by
  intro l
  induction l with
  | nil => intro b; simp [nearestScan]
  | cons e rest ih =>
    intro b
    simp only [nearestScan]
    by_cases h : dist loc e.2 < dist loc b.2
    · simp only [if_pos h]
      exact List.mem_cons_of_mem b (ih e)
    · simp only [if_neg h]
      rcases List.mem_cons.mp (ih b) with h1 | h1
      · rw [h1]
        exact List.mem_cons_self b (e :: rest)
      · exact List.mem_cons_of_mem b (List.mem_cons_of_mem e h1)

lemma nearestScan_min {L C D : Type} [LinearOrder D] (dist : L → C → D) (loc : L) :
    ∀ (l : List (Nat × C)) (b x : Nat × C), x ∈ b :: l →
      dist loc (nearestScan dist loc b l).2 ≤ dist loc x.2 := by
  intro l
  induction l with
  | nil =>
    intro b x hx
    rw [List.mem_singleton.mp hx]
    simp [nearestScan]
  | cons e rest ih =>
    intro b x hx
    simp only [nearestScan]
    by_cases h : dist loc e.2 < dist loc b.2
    · simp only [if_pos h]
      rcases List.mem_cons.mp hx with rfl | hx'
      · exact le_of_lt (lt_of_le_of_lt (ih e e (List.mem_cons_self e rest)) h)
      · exact ih e x hx'
    · simp only [if_neg h]
      rcases List.mem_cons.mp hx with rfl | hx'
      · exact ih x x (List.mem_cons_self x rest)
      · rcases List.mem_cons.mp hx' with rfl | hx''
        · exact le_trans (ih b b (List.mem_cons_self b rest)) (not_lt.mp h)
        · exact ih b x (List.mem_cons_of_mem b hx'')

lemma nearestScan_tie {L C D : Type} [LinearOrder D] (dist : L → C → D) (loc : L) :
    ∀ (l : List (Nat × C)) (b : Nat × C),
      ((b :: l).Pairwise fun a c => a.1 < c.1) →
      ∀ x ∈ b :: l, dist loc x.2 = dist loc (nearestScan dist loc b l).2 →
        (nearestScan dist loc b l).1 ≤ x.1 := by
  intro l
  induction l with
  | nil =>
    intro b _ x hx _
    rw [List.mem_singleton.mp hx]
    simp [nearestScan]
  | cons e rest ih =>
    intro b hp x hx hd
    simp only [nearestScan] at hd ⊢
    by_cases h : dist loc e.2 < dist loc b.2
    · simp only [if_pos h] at hd ⊢
      have hp' : ((e :: rest).Pairwise fun a c => a.1 < c.1) := hp.of_cons
      rcases List.mem_cons.mp hx with rfl | hx'
      · exfalso
        have h1 : dist loc (nearestScan dist loc e rest).2 ≤ dist loc e.2 :=
          nearestScan_min dist loc rest e e (List.mem_cons_self e rest)
        have h2 : dist loc (nearestScan dist loc e rest).2 < dist loc x.2 :=
          lt_of_le_of_lt h1 h
        rw [hd] at h2
        exact lt_irrefl _ h2
      · exact ih e hp' x hx' hd
    · simp only [if_neg h] at hd ⊢
      have hble : dist loc b.2 ≤ dist loc e.2 := not_lt.mp h
      have hp' : ((b :: rest).Pairwise fun a c => a.1 < c.1) := by
        rcases List.pairwise_cons.mp hp with ⟨hbAll, hpe⟩
        exact List.pairwise_cons.mpr
          ⟨fun y hy => hbAll y (List.mem_cons_of_mem e hy), hpe.of_cons⟩
      rcases List.mem_cons.mp hx with rfl | hx'
      · exact ih x hp' x (List.mem_cons_self x rest) hd
      · rcases List.mem_cons.mp hx' with rfl | hx''
        · have h1 : dist loc (nearestScan dist loc b rest).2 ≤ dist loc b.2 :=
            nearestScan_min dist loc rest b b (List.mem_cons_self b rest)
          have h3 : dist loc b.2 ≤ dist loc (nearestScan dist loc b rest).2 := by
            rw [← hd]; exact hble
          have h4 : dist loc b.2 = dist loc (nearestScan dist loc b rest).2 :=
            le_antisymm h3 h1
          have h5 : (nearestScan dist loc b rest).1 ≤ b.1 :=
            ih b hp' b (List.mem_cons_self b rest) h4
          have hbe : b.1 < x.1 := (List.pairwise_cons.mp hp).1 x (List.mem_cons_self x rest)
          exact le_of_lt (lt_of_le_of_lt h5 hbe)
        · exact ih b hp' x (List.mem_cons_of_mem b hx'') hd

/-- Claim C4: for every user location and distance measure,
`findNearestCity` over an empty city set returns none; over a singleton set
it returns that city regardless of location; and over any non-empty set
(entries listed in the ascending-id order `Object.entries` yields) it
returns a city at minimum distance from the location, with ties broken by
the lowest city id. -/
theorem findNearestCity_spec {L C D : Type} [LinearOrder D] (dist : L → C → D) (loc : L) :
    findNearestCity dist loc ([] : List (Nat × C)) = none
  ∧ (∀ e : Nat × C, findNearestCity dist loc [e] = some e)
  ∧ ∀ entries : List (Nat × C), entries ≠ [] →
      (entries.Pairwise fun a b => a.1 < b.1) →
      ∃ c, findNearestCity dist loc entries = some c ∧ c ∈ entries
        ∧ (∀ e ∈ entries, dist loc c.2 ≤ dist loc e.2)
        ∧ (∀ e ∈ entries, dist loc e.2 = dist loc c.2 → c.1 ≤ e.1) := by
  refine ⟨rfl, ?_, ?_⟩
  · intro e
    rw [findNearestCity_cons]
    rfl
  · intro entries hne hp
    match entries, hne with
    | e :: l, _ =>
      exact ⟨nearestScan dist loc e l, findNearestCity_cons dist loc e l,
        nearestScan_mem dist loc l e,
        fun x hx => nearestScan_min dist loc l e x hx,
        fun x hx hd => nearestScan_tie dist loc l e hp x hx hd⟩

/-- Claim C4 at a concrete input: over the id-sorted entries
`[(0, 5), (1, 3), (2, 3)]` with the identity distance measure, applying
`findNearestCity_spec` (the minimum 3 is attained at ids 1 and 2, and the
tie goes to id 1). -/
theorem findNearestCity_spec_witness :
    ([((0 : Nat), (5 : ℚ)), (1, 3), (2, 3)] ≠ ([] : List (Nat × ℚ)))
  ∧ ([((0 : Nat), (5 : ℚ)), (1, 3), (2, 3)].Pairwise fun a b => a.1 < b.1)
  ∧ ∃ c, findNearestCity (fun (_ : Unit) (q : ℚ) => q) ()
          [((0 : Nat), (5 : ℚ)), (1, 3), (2, 3)] = some c
      ∧ c ∈ [((0 : Nat), (5 : ℚ)), (1, 3), (2, 3)]
      ∧ (∀ e ∈ [((0 : Nat), (5 : ℚ)), (1, 3), (2, 3)],
          (fun (_ : Unit) (q : ℚ) => q) () c.2 ≤ (fun (_ : Unit) (q : ℚ) => q) () e.2)
      ∧ (∀ e ∈ [((0 : Nat), (5 : ℚ)), (1, 3), (2, 3)],
          (fun (_ : Unit) (q : ℚ) => q) () e.2 = (fun (_ : Unit) (q : ℚ) => q) () c.2 →
            c.1 ≤ e.1) :=
  ⟨by decide, by decide,
    (findNearestCity_spec (fun (_ : Unit) (q : ℚ) => q) ()).2.2
      [((0 : Nat), (5 : ℚ)), (1, 3), (2, 3)] (by decide) (by decide)⟩

lemma haversine_sin_sq_symm (u v : ℝ) :
    Real.sin ((u - v) * Real.pi / 180 / 2) * Real.sin ((u - v) * Real.pi / 180 / 2)
      = Real.sin ((v - u) * Real.pi / 180 / 2) * Real.sin ((v - u) * Real.pi / 180 / 2) := by
  have h : (u - v) * Real.pi / 180 / 2 = -((v - u) * Real.pi / 180 / 2) := by ring
  rw [h, Real.sin_neg]
  ring

lemma calculateDistance_symm (lat1 lon1 lat2 lon2 : ℝ) :
    calculateDistance lat1 lon1 lat2 lon2 = calculateDistance lat2 lon2 lat1 lon1 := by
  simp only [calculateDistance]
  rw [haversine_sin_sq_symm lat2 lat1, haversine_sin_sq_symm lon2 lon1,
    mul_comm (Real.cos (lat1 * Real.pi / 180)) (Real.cos (lat2 * Real.pi / 180))]

lemma atan2_zero_one : atan2 0 1 = 0 := by
  unfold atan2
  rw [if_pos (by norm_num : (0 : ℝ) < 1)]
  norm_num [Real.arctan_zero]

lemma calculateDistance_self (lat lon : ℝ) : calculateDistance lat lon lat lon = 0 := by
  simp only [calculateDistance, sub_self, zero_mul, zero_div, Real.sin_zero, mul_zero,
    zero_add, add_zero, Real.sqrt_zero, sub_zero, Real.sqrt_one, atan2_zero_one]

/-- Claim C5: `calculateDistance` (idealized over the reals) is symmetric —
exactly, hence within the claimed 1e-6 km tolerance — and zero for
identical points; as embedded it is a total function with no error
conditions. -/
theorem calculateDistance_symm_self :
    (∀ lat1 lon1 lat2 lon2 : ℝ,
        calculateDistance lat1 lon1 lat2 lon2 = calculateDistance lat2 lon2 lat1 lon1
      ∧ |calculateDistance lat1 lon1 lat2 lon2 - calculateDistance lat2 lon2 lat1 lon1|
          ≤ 1e-6)
  ∧ ∀ lat lon : ℝ, calculateDistance lat lon lat lon = 0 := by
  refine ⟨fun lat1 lon1 lat2 lon2 =>
    ⟨calculateDistance_symm lat1 lon1 lat2 lon2, ?_⟩, calculateDistance_self⟩
  rw [calculateDistance_symm lat1 lon1 lat2 lon2, sub_self, abs_zero]
  norm_num

/-- Claim C2 (amended): with `selectCity(A)` then `selectCity(B)` issued
before either fetch resolves, the module variable `currentCityId` ends as B,
but the displayed traffic data, info card and current marker reflect
whichever response arrived last: when A's response arrives after B's they
reflect A, and B's marker additionally remains on the map (the stale
response is applied, not discarded); they reflect B only when B's response
arrives last. -/
theorem citySelection_supersession_spec (cities : Nat → Bool) (s₀ : SelState)
    (A B lvlA lvlB : Nat) (hA : cities A = true) (hB : cities B = true) :
    ((runSel cities s₀ [SelEvent.select A, SelEvent.select B,
        SelEvent.resolveOk B lvlB, SelEvent.resolveOk A lvlA]).currentCityId = some B
  ∧ (runSel cities s₀ [SelEvent.select A, SelEvent.select B,
        SelEvent.resolveOk B lvlB, SelEvent.resolveOk A lvlA]).currentCityData = some B
  ∧ (runSel cities s₀ [SelEvent.select A, SelEvent.select B,
        SelEvent.resolveOk B lvlB, SelEvent.resolveOk A lvlA]).currentTrafficData
      = some (A, lvlA)
  ∧ (runSel cities s₀ [SelEvent.select A, SelEvent.select B,
        SelEvent.resolveOk B lvlB, SelEvent.resolveOk A lvlA]).infoDisplay
      = some (A, some lvlA)
  ∧ (runSel cities s₀ [SelEvent.select A, SelEvent.select B,
        SelEvent.resolveOk B lvlB, SelEvent.resolveOk A lvlA]).markerVar = some A
  ∧ B ∈ (runSel cities s₀ [SelEvent.select A, SelEvent.select B,
        SelEvent.resolveOk B lvlB, SelEvent.resolveOk A lvlA]).mapMarkers)
  ∧ ((runSel cities s₀ [SelEvent.select A, SelEvent.select B,
        SelEvent.resolveOk A lvlA, SelEvent.resolveOk B lvlB]).currentTrafficData
      = some (B, lvlB)
  ∧ (runSel cities s₀ [SelEvent.select A, SelEvent.select B,
        SelEvent.resolveOk A lvlA, SelEvent.resolveOk B lvlB]).infoDisplay
      = some (B, some lvlB)
  ∧ (runSel cities s₀ [SelEvent.select A, SelEvent.select B,
        SelEvent.resolveOk A lvlA, SelEvent.resolveOk B lvlB]).markerVar = some B) := by
  simp [runSel, stepSel, hA, hB]

/-- Claim C2, counterexample to the claim as stated: selecting city 0, then
city 1 before the first fetch resolves, with city 0's response arriving
last, leaves the displayed traffic data, info card and current marker
reflecting city 0 — not city 1 as the claim requires — and city 1's marker
orphaned on the map. -/
theorem citySelection_supersession_counterexample :
    runSel citiesTwo initSel [SelEvent.select 0, SelEvent.select 1,
        SelEvent.resolveOk 1 2, SelEvent.resolveOk 0 1]
      = { currentCityId := some 1, currentCityData := some 1,
          currentTrafficData := some (0, 1), infoDisplay := some (0, some 1),
          markerVar := some 0, mapMarkers := [1, 0] }
  ∧ (runSel citiesTwo initSel [SelEvent.select 0, SelEvent.select 1,
        SelEvent.resolveOk 1 2, SelEvent.resolveOk 0 1]).markerVar ≠ some 1
  ∧ (runSel citiesTwo initSel [SelEvent.select 0, SelEvent.select 1,
        SelEvent.resolveOk 1 2, SelEvent.resolveOk 0 1]).infoDisplay
      ≠ some (1, some 2) := by
  decide

/-- Claim C2 at concrete inputs, applying `citySelection_supersession_spec`
with cities 0 and 1. -/
theorem citySelection_supersession_witness :
    citiesTwo 0 = true ∧ citiesTwo 1 = true
  ∧ (runSel citiesTwo initSel [SelEvent.select 0, SelEvent.select 1,
        SelEvent.resolveOk 1 5, SelEvent.resolveOk 0 7]).infoDisplay = some (0, some 7)
  ∧ (runSel citiesTwo initSel [SelEvent.select 0, SelEvent.select 1,
        SelEvent.resolveOk 1 5, SelEvent.resolveOk 0 7]).markerVar = some 0 := by
  have h := citySelection_supersession_spec citiesTwo initSel 0 1 7 5 rfl rfl
  exact ⟨rfl, rfl, h.1.2.2.2.1, h.1.2.2.2.2.1⟩

lemma showAllCitiesOnMap_eq_filterMap (fetchResult : Nat → CityFetchOutcome)
    (cities : List (Nat × City)) :
    showAllCitiesOnMap fetchResult cities = cities.filterMap (cityMarkerOf fetchResult) := by
  suffices h : ∀ (l : List (Nat × City)) (acc : List (Nat × Int)),
      l.foldl (fun markers e =>
        match fetchResult e.1 with
        | .response true lvl => markers ++ [(e.1, lvl)]
        | _ => markers) acc
      = acc ++ l.filterMap (cityMarkerOf fetchResult) by
    simpa [showAllCitiesOnMap] using h cities []
  intro l
  induction l with
  | nil => intro acc; simp
  | cons e rest ih =>
    intro acc
    simp only [List.foldl_cons, List.filterMap_cons, cityMarkerOf]
    cases hfe : fetchResult e.1 with
    | fetchError => simp only [hfe]; rw [ih acc]
    | response succ lvl =>
      cases succ
      · simp only [hfe]; rw [ih acc]
      · simp only [hfe]; rw [ih (acc ++ [(e.1, lvl)])]; simp

/-- Claim C9: the bulk show-all-cities operation renders exactly the cities
whose own fetch succeeded — each city's marker is produced by its own
iteration (the filterMap form), a successful city is rendered, a failed city
is omitted, and the result depends only on each city's own fetch outcome, so
failures never abort the remaining cities. -/
theorem showAllCities_independent_spec (fetchResult : Nat → CityFetchOutcome)
    (cities : List (Nat × City)) :
    showAllCitiesOnMap fetchResult cities = cities.filterMap (cityMarkerOf fetchResult)
  ∧ (∀ e ∈ cities, ∀ lvl : Int, fetchResult e.1 = CityFetchOutcome.response true lvl →
      (e.1, lvl) ∈ showAllCitiesOnMap fetchResult cities)
  ∧ ((cities.map Prod.fst).Nodup →
      ∀ e ∈ cities, (∀ lvl : Int, fetchResult e.1 ≠ CityFetchOutcome.response true lvl) →
        ∀ lvl : Int, (e.1, lvl) ∉ showAllCitiesOnMap fetchResult cities)
  ∧ (∀ g : Nat → CityFetchOutcome, (∀ e ∈ cities, g e.1 = fetchResult e.1) →
      showAllCitiesOnMap g cities = showAllCitiesOnMap fetchResult cities) := by
  refine ⟨showAllCitiesOnMap_eq_filterMap fetchResult cities, ?_, ?_, ?_⟩
  · intro e he lvl hfe
    rw [showAllCitiesOnMap_eq_filterMap]
    exact List.mem_filterMap.mpr ⟨e, he, by simp [cityMarkerOf, hfe]⟩
  · intro hnd e he hne lvl
    rw [showAllCitiesOnMap_eq_filterMap]
    intro hmem
    rcases List.mem_filterMap.mp hmem with ⟨x, hx, hsel⟩
    cases hgx : fetchResult x.1 with
    | fetchError => simp [cityMarkerOf, hgx] at hsel
    | response succ lvl2 =>
      cases succ
      · simp [cityMarkerOf, hgx] at hsel
      · simp [cityMarkerOf, hgx] at hsel
        obtain ⟨hx1, hlvl⟩ := hsel
        have hxe : x = e := List.inj_on_of_nodup_map hnd hx he hx1
        exact hne lvl (by rw [← hxe, hgx, hlvl])
  · intro g hg
    rw [showAllCitiesOnMap_eq_filterMap, showAllCitiesOnMap_eq_filterMap]
    exact List.filterMap_congr (fun x hx => by simp [cityMarkerOf, hg x hx])

/-- Claim C9 at concrete inputs, applying `showAllCities_independent_spec`:
with city 0 succeeding, city 1 failing in transport and city 2 answering
unsuccessfully, city 0 is rendered and cities 1 and 2 are omitted. -/
theorem showAllCities_independent_witness :
    (demoCities.map Prod.fst).Nodup
  ∧ (0, (2 : Int)) ∈ showAllCitiesOnMap demoFetch demoCities
  ∧ (1, (0 : Int)) ∉ showAllCitiesOnMap demoFetch demoCities
  ∧ (2, (1 : Int)) ∉ showAllCitiesOnMap demoFetch demoCities := by
  obtain ⟨h1, h2, h3, h4⟩ := showAllCities_independent_spec demoFetch demoCities
  refine ⟨by decide, ?_, ?_, ?_⟩
  · exact h2 _ (List.mem_cons_self _ _) 2 rfl
  · exact h3 (by decide) _ (List.mem_cons_of_mem _ (List.mem_cons_self _ _))
      (fun lvl h => by simp [demoFetch] at h) 0
  · exact h3 (by decide) _
      (List.mem_cons_of_mem _ (List.mem_cons_of_mem _ (List.mem_cons_self _ _)))
      (fun lvl h => by simp [demoFetch] at h) 1

/-- Claim C10 at a concrete input: an empty coordinates list clears an
existing route and destination marker, by `drawRoute_empty_clears_spec`. -/
theorem drawRoute_empty_clears_witness :
    drawRoute (some []) { name := "Tunis", lat := 36.8065, lng := 10.1815 }
        { routeLayer := some [(1, 2)], destinationMarker := some (3, 4) }
      = { routeLayer := none, destinationMarker := none } :=
  drawRoute_empty_clears_spec _ _ _ (Or.inr rfl)

end TrafficPrediction
